import Mathlib

/-!
Shallow embedding of the FileZipper V6 job-orchestration engine
(`V6/job_manager.py`, `V6/job_runner.py`, `V6/job_scheduler.py`) and proofs
about its scheduling, conflict-resolution, execution and registry behaviour.

Modelling conventions:
* Python strings are `String`, `None`-able values are `Option`.
* UTC timestamps are seconds since the epoch (`Nat`); `datetime.replace`
  arithmetic becomes integer division/multiplication on seconds.
* Python dicts keyed by job ids become association lists with first-match
  lookup and in-place overwrite, mirroring dict key semantics.
* Operations that can raise are `Except String`; returning `.ok` models a
  call that raises no exception.
-/

/-! ## Status vocabulary (`V6/job_manager.py`, lines 11-19) -/

def STATUS_IDLE : String := "Idle"

def STATUS_PENDING : String := "Pending"

def STATUS_PACKAGING : String := "Packaging"

def STATUS_AWAITING_TRANSFER : String := "Awaiting Transfer"

def STATUS_TRANSFERRING : String := "Transferring"

def STATUS_VERIFYING : String := "Verifying"

def STATUS_NOTIFYING_SENDER : String := "Notifying Sender"

def STATUS_COMPLETED : String := "Completed"

def STATUS_FAILED : String := "Failed"

/-! ## `os.path.splitext` (CPython `posixpath`/`genericpath._splitext`)

`splitext` finds the rightmost extension separator after the rightmost path
separator; leading dots of the basename never start an extension. -/

/-- Index of the last occurrence of a character in a list, if any. -/
def rfindIdx (c : Char) : List Char → Option Nat
  | [] => none
  | x :: xs =>
    match rfindIdx c xs with
    | some i => some (i + 1)
    | none => if x = c then some 0 else none

/-- Whether every character in positions `[start, stop)` is a dot. -/
def allDotsBetween (l : List Char) (start stop : Nat) : Bool :=
  ((l.drop start).take (stop - start)).all (fun ch => ch = '.')

/-- Embedding of `os.path.splitext` for POSIX paths: split at the last dot
that lies strictly after the last `/` and after at least one non-dot
character of the basename. -/
def splitext (p : String) : String × String :=
  let l := p.data
  let sepIdx := rfindIdx '/' l
  let dotIdx := rfindIdx '.' l
  match dotIdx with
  | none => (p, "")
  | some d =>
    let fnameStart := match sepIdx with | none => 0 | some s => s + 1
    let dotAfterSep : Bool := match sepIdx with | none => true | some s => decide (s < d)
    if dotAfterSep && !allDotsBetween l fnameStart d then
      ((l.take d).asString, (l.drop d).asString)
    else
      (p, "")

example : splitext "archive.zip" = ("archive", ".zip") := by decide
example : splitext "/tmp/a.b/archive" = ("/tmp/a.b/archive", "") := by decide
example : splitext ".bashrc" = (".bashrc", "") := by decide

/-! ## Conflict resolver (`V6/job_runner.py`, `resolve_save_conflict`, lines 80-97)

The filesystem is modelled as a Boolean existence predicate on paths.  The
source's rename loop probes `name_1.ext`, `name_2.ext`, ... without bound,
so the embedding takes a fuel parameter; `none` in the outer `Option`
models a probe that has not found a free name within the fuel (the source
would still be looping). -/

inductive ConflictResolution where
  | overwrite
  | rename
  | cancel
  deriving DecidableEq, Repr

/-- The `.value` string of the `ConflictResolution` enum. -/
def ConflictResolution.value : ConflictResolution → String
  | .overwrite => "overwrite"
  | .rename => "rename"
  | .cancel => "cancel"

/-- The candidate path the rename loop builds for a given count:
`f"{name}_{count}{ext}"` with `name, ext = os.path.splitext(zip_dest)`. -/
def renameCandidate (zipDest : String) (count : Nat) : String :=
  let p := splitext zipDest
  p.1 ++ "_" ++ toString count ++ p.2

/-- The rename probe loop: starting at `count`, return the first candidate
that does not exist, spending one unit of fuel per probe. -/
def findRenameDest (fsExists : String → Bool) (zipDest : String) :
    Nat → Nat → Option String
  | 0, _ => none
  | fuel + 1, count =>
    if fsExists (renameCandidate zipDest count) = false then
      some (renameCandidate zipDest count)
    else
      findRenameDest fsExists zipDest fuel (count + 1)

/-- Embedding of `resolve_save_conflict` restricted to an explicit policy
(the interactive fallback for a missing policy is out of scope).  The outer
`Option` is termination of the rename probe; the inner `Option` is the
function's Python return value, where `none` models returning `None`. -/
def resolve_save_conflict (fsExists : String → Bool) (fuel : Nat)
    (zipDest : String) (onConflictAction : ConflictResolution) :
    Option (Option String) :=
  if fsExists zipDest = false then
    some (some zipDest)
  else
    match onConflictAction with
    | .overwrite => some (some zipDest)
    | .rename => (findRenameDest fsExists zipDest fuel 1).map some
    | .cancel => some none

/-- Helper: everything `findRenameDest` returns is the first free candidate
at or after the starting count. -/
theorem findRenameDest_spec (fsExists : String → Bool) (zipDest : String) :
    ∀ (fuel count : Nat) (r : String),
      findRenameDest fsExists zipDest fuel count = some r →
      ∃ c, count ≤ c ∧ r = renameCandidate zipDest c ∧
        fsExists (renameCandidate zipDest c) = false ∧
        ∀ c', count ≤ c' → c' < c → fsExists (renameCandidate zipDest c') = true := by
  intro fuel
  induction fuel with
  | zero => intro count r h; simp [findRenameDest] at h
  | succ n ih =>
    intro count r h
    by_cases hfree : fsExists (renameCandidate zipDest count) = false
    · refine ⟨count, le_refl _, ?_, hfree, ?_⟩
      · simp [findRenameDest, hfree] at h
        exact h.symm
      · intro c' h1 h2
        omega
    · have hstep : findRenameDest fsExists zipDest n (count + 1) = some r := by
        simpa [findRenameDest, hfree] using h
      obtain ⟨c, hc1, hc2, hc3, hc4⟩ := ih (count + 1) r hstep
      refine ⟨c, by omega, hc2, hc3, ?_⟩
      intro c' h1 h2
      by_cases hce : c' = count
      · subst hce
        simpa using Bool.not_eq_false _ |>.mp hfree
      · exact hc4 c' (by omega) h2

/-! ## Job rows (`database.list_jobs` 19-column tuples)

Only the columns the orchestration engine reads are modelled:
`j.id, j.name, j.source_path, d.location, d.provider, j.status, j.schedule,
j.next_run_at, j.schedule_hour, j.schedule_minute,
j.send_email_on_completion, j.recipient_email`.  A persisted `next_run_at`
ISO string is modelled already parsed to epoch seconds. -/

structure JobRow where
  id : Nat
  name : String
  source_path : String
  dest_location : Option String
  dest_provider : Option String
  status : Option String
  schedule : String
  next_run_at : Option Nat
  schedule_hour : Nat
  schedule_minute : Nat
  send_email_on_completion : Bool
  recipient_email : Option String
  deriving DecidableEq, Repr

/-! ## Next-run computation (`V6/job_runner.py`, lines 217-224)

`last_run_time + timedelta(days=1)).replace(hour=h, minute=m, second=0,
microsecond=0)` in UTC seconds: add a day, truncate to the start of that
day, add `h` hours and `m` minutes; analogously for the hourly branch. -/

def secondsPerDay : Nat := 86400

def secondsPerHour : Nat := 3600

/-- Embedding of the `next_run_at` computation performed right after a run
starts.  Only the `"Daily"` and `"Hourly"` schedules produce a value; every
other schedule string leaves `next_run_at = None`. -/
def computeNextRun (schedule : String) (scheduleHour scheduleMinute lastRunTime : Nat) :
    Option Nat :=
  if schedule = "Daily" then
    some (((lastRunTime + secondsPerDay) / secondsPerDay) * secondsPerDay
      + scheduleHour * secondsPerHour + scheduleMinute * 60)
  else if schedule = "Hourly" then
    some (((lastRunTime + secondsPerHour) / secondsPerHour) * secondsPerHour
      + scheduleMinute * 60)
  else
    none

/-! ## Scheduler (`V6/job_scheduler.py`)

The module's import statements (lines 1-8) bind exactly these names; Python
resolves the `os` in `os.path.exists(source_path)` (line 16) against this
set, and a name not in it raises `NameError` when `run_job` executes. -/

def job_scheduler_module_names : List String :=
  ["sched", "threading", "time", "datetime", "timedelta", "timezone",
   "database", "job_manager", "run_job_in_thread", "ConflictResolution"]

/-- A `database.update_job_status` call:
`(status, last_run_at, last_run_status, next_run_at)`. -/
structure DbWrite where
  status : String
  lastRunAt : Option Nat
  lastRunStatus : Option String
  nextRunAt : Option Nat
  deriving DecidableEq, Repr

/-- Possible outcomes of one `job_scheduler.run_job` invocation. -/
inductive SchedulerRunJobResult where
  /-- Evaluating the body raised a `NameError` for an unbound module-level
  name before any job-store write or thread start. -/
  | nameError (missing : String)
  /-- The source path was missing: the job store row of the given job id
  was written and no executor thread was started. -/
  | sourceMissingMarked (jobId : Nat) (write : DbWrite)
  /-- An executor thread was started for the job. -/
  | executorStarted
  deriving DecidableEq, Repr

/-- Embedding of `job_scheduler.run_job` (lines 10-24).  The body first
evaluates `os.path.exists(source_path)`, which requires the name `os` to be
bound in the module namespace; on success it either marks a missing-source
job `("Idle", now, "Failed", None)` and returns, or starts the executor
thread. -/
def scheduler_run_job (job : JobRow) (sourceExists : Bool) (now : Nat) :
    SchedulerRunJobResult :=
  if job_scheduler_module_names.contains "os" = false then
    .nameError "os"
  else if sourceExists = false then
    .sourceMissingMarked job.id ⟨"Idle", some now, some "Failed", none⟩
  else
    .executorStarted

/-- Embedding of Python's `str.lower()` (character-wise lowercasing; the
status strings involved are ASCII). -/
def pyLower (s : String) : String := (s.data.map Char.toLower).asString

/-- The due test of `check_and_run_jobs` (lines 40-47), exactly as coded:
`next_run_at_iso` truthy, `status is None or status.lower() == 'idle'`,
and the parsed timestamp `<= now`. -/
def isDueCode (status : Option String) (nextRunAt : Option Nat) (now : Nat) : Bool :=
  match nextRunAt with
  | none => false
  | some t =>
    (match status with
     | none => true
     | some s => pyLower s == "idle") && decide (t ≤ now)

/-- The jobs of one polling pass for which `check_and_run_jobs` invokes
`run_job` (each invocation is wrapped in its own try/except, so evaluating
one job never stops the iteration over the rest). -/
def check_and_run_jobs (jobs : List JobRow) (now : Nat) : List JobRow :=
  jobs.filter (fun j => isDueCode j.status j.next_run_at now)

/-- Modelled from the spec's wording of due-ness, for comparison with
`isDueCode`: a non-null next-run timestamp, a persisted status equal to
`Idle` up to case (absence counting as idle), and the timestamp at or
before the current time. -/
def isDueSpec (status : Option String) (nextRunAt : Option Nat) (now : Nat) : Bool :=
  nextRunAt.isSome
    && (match status with
        | none => true
        | some s => pyLower s == pyLower "Idle")
    && decide (nextRunAt.getD 0 ≤ now)

/-! ## Executor (`V6/job_runner.py`, `run_job_in_thread`, lines 169-338)

The run is driven by the environment it observes: the stop event's value at
the single pre-packaging checkpoint (line 230) and its value while
`zip_path` iterates over the file list, the configured staging path, the
result tuple of the `zip_path` worker, and the upload's returned remote
file id.  `zip_path` (lines 123-167) takes no stop event and performs no
cancellation check inside its `os.walk` loops, and the worker runs in a
`ProcessPoolExecutor`, so the signal's value during packaging is part of
the environment but is never read by the code. -/

/-- The `connectors` dict keys of `run_job_in_thread` (lines 182-185). -/
def connectorProviders : List String := ["gdrive", "onedrive"]

/-- Whether `dest_provider in connectors` holds (a `None` provider is not a
dict key). -/
def isCloudProvider : Option String → Bool
  | none => false
  | some s => connectorProviders.contains s

/-- Result of the `zip_path` call as observed through
`zip_future.result()`. -/
inductive ZipOutcome where
  /-- `zip_path` returned `(action, dest, num_files, total_size)` with a
  real destination path. -/
  | ok (action : String) (dest : String) (numFiles totalSize : Nat)
  /-- `zip_path` returned `("cancelled", None, 0, 0)`. -/
  | cancelled
  /-- The worker raised and `result()` re-raised. -/
  | raised
  deriving DecidableEq, Repr

/-- Environment one backup run observes. -/
structure ExecEnv where
  now : Nat
  cancelAtStart : Bool
  cancelDuringPackaging : Bool
  stagingPath : Option String
  zipOutcome : ZipOutcome
  uploadResult : Option String
  deriving DecidableEq, Repr

/-- Observable result of one `run_job_in_thread` call. -/
structure RunResult where
  /-- Statuses passed to `job_manager.update_job_status` before the finally
  block removes the run record (the record is created with status
  `Pending` by `add_job` and these updates are applied to it in order). -/
  registryTrace : List String
  /-- Statuses passed to `job_manager.update_job_status` after
  `remove_job`, from the e-mail notification block; the record is already
  gone, so these are no-ops on the registry. -/
  postTrace : List String
  /-- Final value of `job_status_final`. -/
  outcome : String
  /-- `database.update_job_status` calls, in order. -/
  dbWrites : List DbWrite
  /-- The staged archive path `dest`, when `zip_path` produced one. -/
  archivePath : Option String
  /-- Whether `os.remove(dest)` ran. -/
  removedArchive : Bool
  deriving DecidableEq, Repr

/-- The staged archive file exists after the run: it was created and never
removed. -/
def RunResult.stagedArchiveExistsAfter (r : RunResult) : Bool :=
  r.archivePath.isSome && !r.removedArchive

/-- Both except-handlers: set `job_status_final = STATUS_FAILED`, report
`Failed` to the registry, and write `(Idle, last_run, Failed, next_run)` to
the job store when `job_id` is truthy; the finally block then removes the
run record and, when e-mail is configured, issues two further (no-op)
status updates. -/
def mkFailResult (job : JobRow) (env : ExecEnv) (nextRun : Option Nat)
    (traceSoFar : List String) (preDb : List DbWrite) (post : List String)
    (archive : Option String) : RunResult :=
  { registryTrace := traceSoFar ++ [STATUS_FAILED]
    postTrace := post
    outcome := STATUS_FAILED
    dbWrites := preDb ++
      (if job.id = 0 then [] else [⟨STATUS_IDLE, some env.now, some STATUS_FAILED, nextRun⟩])
    archivePath := archive
    removedArchive := false }

/-- Embedding of `run_job_in_thread` for a backup job. -/
def runBackupJob (job : JobRow) (env : ExecEnv) : RunResult :=
  let preTrace : List String := if job.id = 0 then [] else [STATUS_PENDING]
  let preDb : List DbWrite :=
    if job.id = 0 then [] else [⟨STATUS_PENDING, none, none, none⟩]
  let nextRun := computeNextRun job.schedule job.schedule_hour job.schedule_minute env.now
  let post : List String :=
    if job.send_email_on_completion && job.recipient_email.isSome then
      [STATUS_NOTIFYING_SENDER, STATUS_COMPLETED]
    else
      []
  if env.cancelAtStart then
    mkFailResult job env nextRun preTrace preDb post none
  else
    let t1 := preTrace ++ [STATUS_PACKAGING]
    let outputRoot :=
      if job.dest_provider = some "local" then job.dest_location else env.stagingPath
    match outputRoot with
    | none => mkFailResult job env nextRun t1 preDb post none
    | some _ =>
      match env.zipOutcome with
      | .raised => mkFailResult job env nextRun t1 preDb post none
      | .cancelled => mkFailResult job env nextRun t1 preDb post none
      | .ok _action dest _numFiles _totalSize =>
        let t2 := t1 ++ [STATUS_AWAITING_TRANSFER]
        let finalDb := if job.schedule = "Once" then STATUS_COMPLETED else STATUS_IDLE
        let finalWrite : List DbWrite :=
          if job.id = 0 then []
          else [⟨finalDb, some env.now, some STATUS_COMPLETED, nextRun⟩]
        if isCloudProvider job.dest_provider then
          match env.uploadResult with
          | some _remoteFileId =>
            { registryTrace := t2 ++ [STATUS_TRANSFERRING, STATUS_VERIFYING]
              postTrace := post
              outcome := STATUS_COMPLETED
              dbWrites := preDb ++ finalWrite
              archivePath := some dest
              removedArchive := true }
          | none =>
            mkFailResult job env nextRun (t2 ++ [STATUS_TRANSFERRING]) preDb post (some dest)
        else
          { registryTrace := t2 ++ [STATUS_COMPLETED]
            postTrace := post
            outcome := STATUS_COMPLETED
            dbWrites := preDb ++ finalWrite
            archivePath := some dest
            removedArchive := false }

/-! ## Job registry (`V6/job_manager.py`, lines 29-68)

`_running_jobs` is a dict whose keys are either integer persisted-job ids
(backup runs) or `os.urandom(16).hex()` strings (restore runs).  It is
modelled as an association list with dict semantics: lookup finds the first
matching key, assignment overwrites in place or appends.  Every mutating
operation ends with `_notify_listeners()`, modelled as the Boolean
`notified` component; operations that can only raise inside an unguarded
dict access are `Except`-valued, `.ok` meaning no exception escaped. -/

/-- A registry key: a persisted job id or a generated hex string. -/
abbrev RegKey := Sum Nat String

/-- The opaque payload `job_data` built by `run_job_in_thread`
(lines 204-210) or passed by the restore runner. -/
structure JobPayload where
  id : Option RegKey
  name : String
  source_path : String
  dest_location : Option String
  dest_provider : Option String
  deriving DecidableEq, Repr

/-- The `job_data` dict `run_job_in_thread` registers (lines 204-211):
it always carries the persisted job's id under the `id` key. -/
def backupJobPayload (job : JobRow) : JobPayload :=
  { id := some (Sum.inl job.id)
    name := job.name
    source_path := job.source_path
    dest_location := job.dest_location
    dest_provider := job.dest_provider }

/-- One `_running_jobs` record. -/
structure RunRecord where
  data : JobPayload
  jobType : String
  startTime : Nat
  stopEvent : Nat
  status : String
  deriving DecidableEq, Repr

/-- The `_running_jobs` dict. -/
abbrev Registry := List (RegKey × RunRecord)

/-- Dict assignment `d[k] = v`: overwrite the entry in place, or append a
new one. -/
def dictSet : Registry → RegKey → RunRecord → Registry
  | [], k, v => [(k, v)]
  | e :: rest, k, v =>
    if e.1 = k then (k, v) :: rest else e :: dictSet rest k v

/-- Dict membership `k in d`. -/
def dictContains : Registry → RegKey → Bool
  | [], _ => false
  | e :: rest, k => decide (e.1 = k) || dictContains rest k

/-- Dict lookup `d[k]` as an `Option`. -/
def dictGet : Registry → RegKey → Option RunRecord
  | [], _ => none
  | e :: rest, k => if e.1 = k then some e.2 else dictGet rest k

namespace job_manager

/-- Embedding of `add_job(job_data, job_type, stop_event)`: take the
payload's `id` if it has one, else the fresh `os.urandom(16).hex()` value,
store a new record with status `Pending`, notify, and return the id. -/
def add_job (reg : Registry) (job_data : JobPayload) (job_type : String)
    (stop_event : Nat) (now : Nat) (freshHex : String) : Registry × RegKey :=
  let job_id := job_data.id.getD (Sum.inr freshHex)
  (dictSet reg job_id
    { data := { job_data with id := some job_id }
      jobType := job_type
      startTime := now
      stopEvent := stop_event
      status := STATUS_PENDING },
   job_id)

/-- Embedding of `remove_job(job_id)`: delete the entry only when present
(the unguarded `del` of an absent key would be the `.error` case), then
notify. -/
def remove_job (reg : Registry) (job_id : RegKey) :
    Except String (Registry × Bool) :=
  if dictContains reg job_id then
    .ok (reg.filter (fun e => !decide (e.1 = job_id)), true)
  else
    .ok (reg, true)

/-- Embedding of `update_job_status(job_id, status)`: update the record's
status in place only when present, then notify. -/
def update_job_status (reg : Registry) (job_id : RegKey) (status : String) :
    Except String (Registry × Bool) :=
  if dictContains reg job_id then
    .ok (reg.map (fun e => if e.1 = job_id then (e.1, { e.2 with status := status }) else e),
         true)
  else
    .ok (reg, true)

end job_manager

/-- Helper: assignment then lookup of the same key yields the assigned
record. -/
theorem dictGet_dictSet_self (reg : Registry) (k : RegKey) (v : RunRecord) :
    dictGet (dictSet reg k v) k = some v := by
  induction reg with
  | nil => simp [dictSet, dictGet]
  | cons e rest ih =>
    by_cases he : e.1 = k
    · simp [dictSet, dictGet, he]
    · simp [dictSet, dictGet, he, ih]

/-! ## Claim theorems -/

/-- Helper: the coded due test agrees with the spec's wording of
due-ness. -/
theorem isDueCode_eq_isDueSpec (status : Option String) (nextRunAt : Option Nat)
    (now : Nat) : isDueCode status nextRunAt now = isDueSpec status nextRunAt now := by
  cases nextRunAt with
  | none => cases status <;> simp [isDueCode, isDueSpec]
  | some t =>
    cases status with
    | none => simp [isDueCode, isDueSpec]
    | some s =>
      have hlow : pyLower "Idle" = "idle" := by decide
      simp [isDueCode, isDueSpec, hlow]

/-- C5: in every scheduler polling pass, `check_and_run_jobs` hands a job
to `run_job` exactly when it is due in the spec's sense: non-null next-run
timestamp, persisted status `Idle` up to case (a missing status counts as
idle), and next-run at or before the current time. -/
theorem scheduler_starts_iff_due (jobs : List JobRow) (now : Nat) (j : JobRow) :
    j ∈ check_and_run_jobs jobs now ↔
      j ∈ jobs ∧ isDueSpec j.status j.next_run_at now = true := by
  unfold check_and_run_jobs
  rw [List.mem_filter, isDueCode_eq_isDueSpec]

/-- C9: removing or status-updating a run id that is not in the registry
raises no exception, leaves the registry unchanged, and still notifies the
listeners. -/
theorem registry_missing_id_noop (reg : Registry) (k : RegKey) (st : String)
    (habsent : dictContains reg k = false) :
    job_manager.remove_job reg k = .ok (reg, true) ∧
    job_manager.update_job_status reg k st = .ok (reg, true) := by
  constructor
  · simp [job_manager.remove_job, habsent]
  · simp [job_manager.update_job_status, habsent]

/-- A concrete registry holding one unrelated run, used to witness C9. -/
def c9Registry : Registry :=
  [(Sum.inl 7,
    { data := { id := some (Sum.inl 7), name := "Other", source_path := "/other",
                dest_location := some "/d", dest_provider := some "local" }
      jobType := "backup", startTime := 0, stopEvent := 1, status := STATUS_PACKAGING })]

/-- Witness for C9 at a registry that does not contain run id 5. -/
theorem registry_missing_id_noop_witness :
    dictContains c9Registry (Sum.inl 5) = false ∧
    job_manager.remove_job c9Registry (Sum.inl 5) = .ok (c9Registry, true) ∧
    job_manager.update_job_status c9Registry (Sum.inl 5) "Idle" = .ok (c9Registry, true) :=
  ⟨by decide,
   (registry_missing_id_noop c9Registry (Sum.inl 5) "Idle" (by decide)).1,
   (registry_missing_id_noop c9Registry (Sum.inl 5) "Idle" (by decide)).2⟩

/-- C10: the payload `run_job_in_thread` registers carries the persisted
job's id, `add_job` returns that id instead of the fresh generated one,
and a second registration with the same payload id keys to the same
registry entry and overwrites the first run's record. -/
theorem add_job_reuses_payload_id (reg : Registry) (j : JobRow)
    (e1 e2 n1 n2 : Nat) (f1 f2 : String) :
    (backupJobPayload j).id = some (Sum.inl j.id) ∧
    (job_manager.add_job reg (backupJobPayload j) "backup" e1 n1 f1).2 = Sum.inl j.id ∧
    (job_manager.add_job
        (job_manager.add_job reg (backupJobPayload j) "backup" e1 n1 f1).1
        (backupJobPayload j) "backup" e2 n2 f2).2 = Sum.inl j.id ∧
    dictGet
        (job_manager.add_job
          (job_manager.add_job reg (backupJobPayload j) "backup" e1 n1 f1).1
          (backupJobPayload j) "backup" e2 n2 f2).1
        (Sum.inl j.id) =
      some { data := { (backupJobPayload j) with id := some (Sum.inl j.id) }
             jobType := "backup", startTime := n2, stopEvent := e2,
             status := STATUS_PENDING } := by
  refine ⟨rfl, rfl, rfl, ?_⟩
  simpa [job_manager.add_job, backupJobPayload] using
    dictGet_dictSet_self
      (dictSet reg (Sum.inl j.id)
        { data := { (backupJobPayload j) with id := some (Sum.inl j.id) }
          jobType := "backup", startTime := n1, stopEvent := e1,
          status := STATUS_PENDING })
      (Sum.inl j.id)
      { data := { (backupJobPayload j) with id := some (Sum.inl j.id) }
        jobType := "backup", startTime := n2, stopEvent := e2,
        status := STATUS_PENDING }

/-- C2 (code bug): `V6/job_scheduler.py` never imports `os`, so every
`run_job` invocation raises `NameError` at `os.path.exists(source_path)`
before the missing-source check can run: the job store is never marked and
no executor thread is started, for missing and existing sources alike. -/
theorem scheduler_run_job_raises_nameError (job : JobRow) (sourceExists : Bool)
    (now : Nat) :
    scheduler_run_job job sourceExists now = SchedulerRunJobResult.nameError "os" ∧
    job_scheduler_module_names.contains "os" = false := by
  exact ⟨rfl, rfl⟩

/-- A Weekly-scheduled cloud job, used for C3. -/
def weeklyJob : JobRow :=
  { id := 3, name := "WeeklyJob", source_path := "/data/photos",
    dest_location := some "folder123", dest_provider := some "gdrive",
    status := some "Idle", schedule := "Weekly", next_run_at := some 900,
    schedule_hour := 9, schedule_minute := 0,
    send_email_on_completion := false, recipient_email := none }

/-- A fully successful environment for the Weekly job's run. -/
def weeklyEnv : ExecEnv :=
  { now := 1000, cancelAtStart := false, cancelDuringPackaging := false,
    stagingPath := some "/staging",
    zipOutcome := .ok "created" "/staging/photos.zip" 2 2048,
    uploadResult := some "rid1" }

/-- C3 (code bug): a `Weekly` job's successful run persists a null
next-run timestamp — `computeNextRun` only handles `"Daily"` and
`"Hourly"`, so the recurring Weekly job is never rescheduled, against the
spec's non-null strictly-future invariant. -/
theorem weekly_run_persists_null_next_run :
    computeNextRun "Weekly" 9 0 1000 = none ∧
    (runBackupJob weeklyJob weeklyEnv).outcome = STATUS_COMPLETED ∧
    (runBackupJob weeklyJob weeklyEnv).dbWrites =
      [⟨STATUS_PENDING, none, none, none⟩,
       ⟨STATUS_IDLE, some 1000, some STATUS_COMPLETED, none⟩] := by
  exact ⟨rfl, rfl, rfl⟩

/-- C1: a successful cloud-destination run reports exactly
`Pending, Packaging, Awaiting Transfer, Transferring, Verifying` to the
registry, its final recorded status (`job_status_final`, kept as the run's
outcome in the job store and the completion e-mail) is `Completed`, and
the local staged archive is removed. -/
theorem runBackupJob_cloud_success_trace (job : JobRow) (env : ExecEnv)
    (sp a d rid : String) (n s : Nat)
    (hid : job.id ≠ 0)
    (hprov : job.dest_provider = some "gdrive" ∨ job.dest_provider = some "onedrive")
    (hcancel : env.cancelAtStart = false)
    (hsp : env.stagingPath = some sp)
    (hzip : env.zipOutcome = .ok a d n s)
    (hup : env.uploadResult = some rid) :
    (runBackupJob job env).registryTrace =
      [STATUS_PENDING, STATUS_PACKAGING, STATUS_AWAITING_TRANSFER,
       STATUS_TRANSFERRING, STATUS_VERIFYING] ∧
    (runBackupJob job env).outcome = STATUS_COMPLETED ∧
    (runBackupJob job env).removedArchive = true ∧
    (runBackupJob job env).stagedArchiveExistsAfter = false := by
  rcases hprov with h | h <;>
    simp [runBackupJob, h, hcancel, hsp, hzip, hup, hid, isCloudProvider,
      connectorProviders, RunResult.stagedArchiveExistsAfter]

/-- The cloud job of the repository's own `test_gdrive_job_status_transitions`
test, used to witness C1. -/
def c1job : JobRow :=
  { id := 2, name := "Gdrive Job", source_path := "/fake/source",
    dest_location := some "gdrive_folder_id", dest_provider := some "gdrive",
    status := some "Idle", schedule := "Once", next_run_at := none,
    schedule_hour := 0, schedule_minute := 0,
    send_email_on_completion := false, recipient_email := none }

/-- The successful-upload environment for the C1 witness. -/
def c1env : ExecEnv :=
  { now := 500, cancelAtStart := false, cancelDuringPackaging := false,
    stagingPath := some "/fake/staging",
    zipOutcome := .ok "created" "/fake/staging/archive.zip" 5 1024,
    uploadResult := some "fake_gdrive_file_id" }

/-- Witness for C1 at the concrete Google-Drive job run. -/
theorem runBackupJob_cloud_success_trace_witness :
    (runBackupJob c1job c1env).registryTrace =
      [STATUS_PENDING, STATUS_PACKAGING, STATUS_AWAITING_TRANSFER,
       STATUS_TRANSFERRING, STATUS_VERIFYING] ∧
    (runBackupJob c1job c1env).outcome = STATUS_COMPLETED ∧
    (runBackupJob c1job c1env).removedArchive = true ∧
    (runBackupJob c1job c1env).stagedArchiveExistsAfter = false :=
  runBackupJob_cloud_success_trace c1job c1env "/fake/staging" "created"
    "/fake/staging/archive.zip" "fake_gdrive_file_id" 5 1024
    (by decide) (Or.inl rfl) rfl rfl rfl rfl

/-- C7: every successful run records outcome `Completed` transiently and
persists `Completed` for a `Once` schedule but `Idle` for every other
schedule, and a row persisted as `Completed` is never due again in any
later scheduler pass. -/
theorem success_persisted_status (job : JobRow) (env : ExecEnv)
    (root a d rid : String) (n s : Nat)
    (hid : job.id ≠ 0)
    (hcancel : env.cancelAtStart = false)
    (hroot : (if job.dest_provider = some "local" then job.dest_location
              else env.stagingPath) = some root)
    (hzip : env.zipOutcome = .ok a d n s)
    (hup : isCloudProvider job.dest_provider = true → env.uploadResult = some rid) :
    (runBackupJob job env).outcome = STATUS_COMPLETED ∧
    (runBackupJob job env).dbWrites =
      [⟨STATUS_PENDING, none, none, none⟩,
       ⟨if job.schedule = "Once" then STATUS_COMPLETED else STATUS_IDLE,
        some env.now, some STATUS_COMPLETED,
        computeNextRun job.schedule job.schedule_hour job.schedule_minute env.now⟩] ∧
    (∀ (nr : Option Nat) (now' : Nat), isDueCode (some STATUS_COMPLETED) nr now' = false) := by
  have hpc : (pyLower STATUS_COMPLETED == "idle") = false := by decide
  have hcompl : ∀ (nr : Option Nat) (now' : Nat),
      isDueCode (some STATUS_COMPLETED) nr now' = false := by
    intro nr now'
    cases nr <;> simp [isDueCode, hpc]
  by_cases hc : isCloudProvider job.dest_provider = true
  · have hup' := hup hc
    refine ⟨?_, ?_, hcompl⟩ <;>
      simp [runBackupJob, hid, hcancel, hroot, hzip, hc, hup']
  · have hc' : isCloudProvider job.dest_provider = false := by
      cases hcb : isCloudProvider job.dest_provider
      · rfl
      · exact absurd hcb hc
    refine ⟨?_, ?_, hcompl⟩ <;>
      simp [runBackupJob, hid, hcancel, hroot, hzip, hc']

/-- A Once-scheduled local job ("OnceJob" of the spec scenario), used to
witness C7. -/
def c7job : JobRow :=
  { id := 1, name := "OnceJob", source_path := "/fake/source",
    dest_location := some "/fake/destination", dest_provider := some "local",
    status := some "Idle", schedule := "Once", next_run_at := some 10,
    schedule_hour := 10, schedule_minute := 0,
    send_email_on_completion := false, recipient_email := none }

/-- The successful local environment for the C7 witness. -/
def c7env : ExecEnv :=
  { now := 100, cancelAtStart := false, cancelDuringPackaging := false,
    stagingPath := none,
    zipOutcome := .ok "created" "/fake/destination/source.zip" 1 10,
    uploadResult := none }

/-- Witness for C7 at the concrete successful `Once` local run. -/
theorem success_persisted_status_witness :
    (runBackupJob c7job c7env).outcome = STATUS_COMPLETED ∧
    (runBackupJob c7job c7env).dbWrites =
      [⟨STATUS_PENDING, none, none, none⟩,
       ⟨if c7job.schedule = "Once" then STATUS_COMPLETED else STATUS_IDLE,
        some c7env.now, some STATUS_COMPLETED,
        computeNextRun c7job.schedule c7job.schedule_hour c7job.schedule_minute c7env.now⟩] ∧
    (∀ (nr : Option Nat) (now' : Nat), isDueCode (some STATUS_COMPLETED) nr now' = false) :=
  success_persisted_status c7job c7env "/fake/destination" "created"
    "/fake/destination/source.zip" "unused" 1 10
    (by decide) rfl rfl rfl (by decide)

/-- C8: a cloud run whose upload returns no remote identifier ends with
outcome `Failed` and leaves the staged archive in place: `os.remove` is
never reached, so the file still exists after the run. -/
theorem upload_failure_keeps_local_archive (job : JobRow) (env : ExecEnv)
    (sp a d : String) (n s : Nat)
    (hid : job.id ≠ 0)
    (hprov : job.dest_provider = some "gdrive" ∨ job.dest_provider = some "onedrive")
    (hcancel : env.cancelAtStart = false)
    (hsp : env.stagingPath = some sp)
    (hzip : env.zipOutcome = .ok a d n s)
    (hup : env.uploadResult = none) :
    (runBackupJob job env).outcome = STATUS_FAILED ∧
    (runBackupJob job env).archivePath = some d ∧
    (runBackupJob job env).removedArchive = false ∧
    (runBackupJob job env).stagedArchiveExistsAfter = true := by
  rcases hprov with h | h <;>
    simp [runBackupJob, mkFailResult, h, hcancel, hsp, hzip, hup, hid,
      isCloudProvider, connectorProviders, RunResult.stagedArchiveExistsAfter]

/-- A OneDrive job whose upload fails, used to witness C8. -/
def c8job : JobRow :=
  { id := 6, name := "OneDriveJob", source_path := "/fake/source",
    dest_location := some "onedrive_folder", dest_provider := some "onedrive",
    status := some "Idle", schedule := "Daily", next_run_at := some 10,
    schedule_hour := 2, schedule_minute := 0,
    send_email_on_completion := false, recipient_email := none }

/-- The failed-upload environment for the C8 witness. -/
def c8env : ExecEnv :=
  { now := 100, cancelAtStart := false, cancelDuringPackaging := false,
    stagingPath := some "/staging",
    zipOutcome := .ok "created" "/staging/source.zip" 3 333,
    uploadResult := none }

/-- Witness for C8 at the concrete failed OneDrive upload. -/
theorem upload_failure_keeps_local_archive_witness :
    (runBackupJob c8job c8env).outcome = STATUS_FAILED ∧
    (runBackupJob c8job c8env).archivePath = some "/staging/source.zip" ∧
    (runBackupJob c8job c8env).removedArchive = false ∧
    (runBackupJob c8job c8env).stagedArchiveExistsAfter = true :=
  upload_failure_keeps_local_archive c8job c8env "/staging" "created"
    "/staging/source.zip" 3 333 (by decide) (Or.inr rfl) rfl rfl rfl rfl

/-- A Google-Drive job used for the C4 counterexample and witness. -/
def c4job : JobRow :=
  { id := 4, name := "CancelMidZip", source_path := "/data/src",
    dest_location := some "folderX", dest_provider := some "gdrive",
    status := some "Idle", schedule := "Manual", next_run_at := none,
    schedule_hour := 0, schedule_minute := 0,
    send_email_on_completion := false, recipient_email := none }

/-- A run of `c4job` whose cancellation signal becomes set while the
packaging step iterates over its files (after the single pre-packaging
checkpoint), with all subsequent steps succeeding. -/
def c4env : ExecEnv :=
  { now := 2000, cancelAtStart := false, cancelDuringPackaging := true,
    stagingPath := some "/staging",
    zipOutcome := .ok "created" "/staging/src.zip" 3 300,
    uploadResult := some "rid4" }

/-- Counterexample to C4: the cancellation signal set during the packaging
iteration is never observed — `zip_path` performs no check inside its file
loop and no later phase checks again — so this run finalizes `Completed`,
not `Failed`. -/
theorem cancel_during_packaging_counterexample :
    c4env.cancelDuringPackaging = true ∧
    (runBackupJob c4job c4env).outcome = STATUS_COMPLETED ∧
    ¬ (runBackupJob c4job c4env).outcome = STATUS_FAILED := by
  refine ⟨rfl, rfl, ?_⟩
  decide

/-- C4 (amended): the backup executor's run result does not depend on the
cancellation signal's value during the packaging iteration at all; the
signal is observed only at the single checkpoint before packaging, where
it makes the run finalize `Failed`. -/
theorem cancel_checked_only_before_packaging (job : JobRow) (env : ExecEnv) :
    (∀ b, runBackupJob job { env with cancelDuringPackaging := b } =
      runBackupJob job env) ∧
    (env.cancelAtStart = true →
      (runBackupJob job env).outcome = STATUS_FAILED ∧
      (runBackupJob job env).registryTrace =
        (if job.id = 0 then [] else [STATUS_PENDING]) ++ [STATUS_FAILED]) := by
  constructor
  · intro b
    rfl
  · intro hc
    constructor <;> simp [runBackupJob, mkFailResult, hc]

/-- The pre-cancelled environment for the C4 amended-claim witness. -/
def c4wenv : ExecEnv :=
  { now := 2000, cancelAtStart := true, cancelDuringPackaging := true,
    stagingPath := some "/staging",
    zipOutcome := .ok "created" "/staging/src.zip" 3 300,
    uploadResult := some "rid4" }

/-- Witness for the amended C4 at concrete runs: flipping the
during-packaging signal changes nothing, and a signal already set at the
pre-packaging checkpoint yields `Failed`. -/
theorem cancel_checked_only_before_packaging_witness :
    (runBackupJob c4job { c4env with cancelDuringPackaging := false } =
      runBackupJob c4job c4env) ∧
    (runBackupJob c4job c4wenv).outcome = STATUS_FAILED ∧
    (runBackupJob c4job c4wenv).registryTrace =
      (if c4job.id = 0 then [] else [STATUS_PENDING]) ++ [STATUS_FAILED] :=
  ⟨(cancel_checked_only_before_packaging c4job c4env).1 false,
   ((cancel_checked_only_before_packaging c4job c4wenv).2 rfl).1,
   ((cancel_checked_only_before_packaging c4job c4wenv).2 rfl).2⟩

/-- C6: the conflict resolver returns a non-existing path unchanged without
consulting the policy, returns an existing path unchanged under
`overwrite`, returns `None` under `cancel`, and under `rename` any path it
returns is the first `name_<count><ext>` candidate, counting from 1, that
does not exist. -/
theorem resolve_save_conflict_contract (fsExists : String → Bool) (fuel : Nat)
    (zipDest : String) :
    (fsExists zipDest = false →
      ∀ action, resolve_save_conflict fsExists fuel zipDest action = some (some zipDest)) ∧
    (fsExists zipDest = true →
      resolve_save_conflict fsExists fuel zipDest .overwrite = some (some zipDest)) ∧
    (fsExists zipDest = true →
      resolve_save_conflict fsExists fuel zipDest .cancel = some none) ∧
    (fsExists zipDest = true →
      ∀ r, resolve_save_conflict fsExists fuel zipDest .rename = some (some r) →
        ∃ c, 1 ≤ c ∧ r = renameCandidate zipDest c ∧
          fsExists (renameCandidate zipDest c) = false ∧
          ∀ c', 1 ≤ c' → c' < c → fsExists (renameCandidate zipDest c') = true) := by
  refine ⟨?_, ?_, ?_, ?_⟩
  · intro hfree action
    simp [resolve_save_conflict, hfree]
  · intro hex
    simp [resolve_save_conflict, hex]
  · intro hex
    simp [resolve_save_conflict, hex]
  · intro hex r hr
    have hfind : findRenameDest fsExists zipDest fuel 1 = some r := by
      simpa [resolve_save_conflict, hex] using hr
    exact findRenameDest_spec fsExists zipDest fuel 1 r hfind

/-- A filesystem where `archive.zip` and `archive_1.zip` already exist,
used to witness C6. -/
def c6fs : String → Bool :=
  fun s => s == "archive.zip" || s == "archive_1.zip"

/-- Witness for C6: a fresh path is returned unchanged under any policy,
`overwrite` keeps an existing path, `cancel` yields no path, and renaming
`archive.zip` skips the taken `archive_1.zip` and yields `archive_2.zip`,
provably the first free candidate. -/
theorem resolve_save_conflict_contract_witness :
    resolve_save_conflict c6fs 5 "fresh.zip" .cancel = some (some "fresh.zip") ∧
    resolve_save_conflict c6fs 5 "archive.zip" .overwrite = some (some "archive.zip") ∧
    resolve_save_conflict c6fs 5 "archive.zip" .cancel = some none ∧
    resolve_save_conflict c6fs 5 "archive.zip" .rename = some (some "archive_2.zip") ∧
    (∃ c, 1 ≤ c ∧ "archive_2.zip" = renameCandidate "archive.zip" c ∧
      c6fs (renameCandidate "archive.zip" c) = false ∧
      ∀ c', 1 ≤ c' → c' < c → c6fs (renameCandidate "archive.zip" c') = true) :=
  ⟨(resolve_save_conflict_contract c6fs 5 "fresh.zip").1 (by decide) .cancel,
   (resolve_save_conflict_contract c6fs 5 "archive.zip").2.1 (by decide),
   (resolve_save_conflict_contract c6fs 5 "archive.zip").2.2.1 (by decide),
   by decide,
   (resolve_save_conflict_contract c6fs 5 "archive.zip").2.2.2 (by decide)
     "archive_2.zip" (by decide)⟩
